import Mathlib

/-!
Verification of the working-day interval calculator of the
hr-leave-management repository.

The embedded code lives in:
* src/utils/calculations.py  : HOLIDAYS, is_working_day, calcola_giorni_2025_2026
* src/views/home.py          : giorni_ferie_in_mese
* src/settings/constants.py  : HOLIDAYS_FIXED

Python calendar dates are modelled by a structure of (year, month, day)
natural numbers together with the proleptic-Gregorian ordinal used by
CPython's datetime module (date.toordinal: 0001-01-01 has ordinal 1).
Date comparison, subtraction and day-range enumeration in pandas/datetime
all agree with ordinal arithmetic, and date.weekday() = (ordinal + 6) % 7
with 0 = Monday.  A pandas Timestamp carries no extra information here
(all inputs are pure calendar dates), so it is modelled by the same type.
-/

/-- CPython datetime leap-year test (mirrors calendar.isleap):
year % 4 == 0 and (year % 100 != 0 or year % 400 == 0). -/
def isLeap (y : Nat) : Bool :=
  decide (y % 4 = 0 ∧ (y % 100 ≠ 0 ∨ y % 400 = 0))

/-- CPython _DAYS_IN_MONTH table (index 0 unused). -/
def DAYS_IN_MONTH : List Nat :=
  [0, 31, 28, 31, 30, 31, 30, 31, 31, 30, 31, 30, 31]

/-- Number of days of month m in year y (CPython _days_in_month). -/
def daysInMonth (y m : Nat) : Nat :=
  if m = 2 ∧ isLeap y then 29 else DAYS_IN_MONTH.getD m 0

/-- CPython _DAYS_BEFORE_MONTH table (index 0 unused): cumulative days
before the first of each month in a non-leap year. -/
def DAYS_BEFORE_MONTH : List Nat :=
  [0, 0, 31, 59, 90, 120, 151, 181, 212, 243, 273, 304, 334]

/-- Days in year y strictly before the first day of month m
(CPython _days_before_month). -/
def daysBeforeMonth (y m : Nat) : Nat :=
  DAYS_BEFORE_MONTH.getD m 0 + (if 2 < m ∧ isLeap y then 1 else 0)

/-- Days before January 1st of year y (CPython _days_before_year). -/
def daysBeforeYear (y : Nat) : Nat :=
  365 * (y - 1) + (y - 1) / 4 - (y - 1) / 100 + (y - 1) / 400

/-- CPython date.toordinal(): proleptic Gregorian ordinal of (y, m, d);
0001-01-01 has ordinal 1. -/
def toordinal (y m d : Nat) : Nat :=
  daysBeforeYear y + daysBeforeMonth y m + d

/-- A Python datetime.date value: a (year, month, day) triple. -/
structure Date where
  year : Nat
  month : Nat
  day : Nat
deriving DecidableEq

/-- The proleptic Gregorian ordinal of a date. -/
def Date.ord (d : Date) : Nat :=
  toordinal d.year d.month d.day

/-- Python date.weekday(): 0 = Monday .. 6 = Sunday.  Ordinal 1
(0001-01-01) was a Monday. -/
def Date.weekday (d : Date) : Nat :=
  (d.ord + 6) % 7

/-- The dates Python's date constructor accepts (upper year bound 9999 is
irrelevant to every claim and not modelled). -/
def Date.Valid (d : Date) : Prop :=
  1 ≤ d.year ∧ 1 ≤ d.month ∧ d.month ≤ 12 ∧ 1 ≤ d.day ∧ d.day ≤ daysInMonth d.year d.month

instance (d : Date) : Decidable d.Valid := by
  unfold Date.Valid
  infer_instance

/-- The next calendar day (what stepping a pandas date_range by one day does). -/
def Date.succ (d : Date) : Date :=
  if d.day < daysInMonth d.year d.month then ⟨d.year, d.month, d.day + 1⟩
  else if d.month < 12 then ⟨d.year, d.month + 1, 1⟩
  else ⟨d.year + 1, 1, 1⟩

/-- Python max(a, b) on dates: returns b exactly when b > a (for the valid
dates Python constructs, date order coincides with ordinal order). -/
def dmax (a b : Date) : Date :=
  if a.ord < b.ord then b else a

/-- Python min(a, b) on dates: returns b exactly when b < a. -/
def dmin (a b : Date) : Date :=
  if b.ord < a.ord then b else a

/-- The list of n consecutive calendar days starting at s
(pd.date_range(s, e, freq="D") is dateList s (e.ord - s.ord + 1)). -/
def dateList (s : Date) : Nat → List Date
  | 0 => []
  | n + 1 => s :: dateList s.succ n

/-- HOLIDAYS from src/utils/calculations.py. -/
def HOLIDAYS : Finset Date :=
  {⟨2025, 12, 8⟩, ⟨2025, 12, 25⟩, ⟨2025, 12, 26⟩, ⟨2026, 1, 1⟩, ⟨2026, 1, 6⟩}

/-- HOLIDAYS_FIXED from src/settings/constants.py. -/
def HOLIDAYS_FIXED : Finset Date :=
  {⟨2025, 12, 8⟩, ⟨2025, 12, 25⟩, ⟨2025, 12, 26⟩, ⟨2026, 1, 1⟩, ⟨2026, 1, 6⟩}

/-- is_working_day from src/utils/calculations.py:
False on Saturday/Sunday (weekday() >= 5), False on a holiday, True otherwise. -/
def is_working_day (d : Date) : Bool :=
  if 5 ≤ d.weekday then false
  else if d ∈ HOLIDAYS then false
  else true

/-- A raw date value handed to pandas: either one that pd.to_datetime parses
to a calendar date, or one it cannot parse. -/
inductive DateInput where
  | valid : Date → DateInput
  | unparseable : DateInput
deriving DecidableEq

/-- Error message pandas raises on an unparseable date. -/
def parseErrorMsg : String :=
  "could not parse date"

/-- pd.to_datetime with the default errors="raise": an unparseable value
raises (modelled as Except.error). -/
def pd_to_datetime : DateInput → Except String Date
  | .valid d => .ok d
  | .unparseable => .error parseErrorMsg

/-- pd.to_datetime with errors="coerce": an unparseable value becomes NaT
(modelled as none). -/
def pd_to_datetime_coerce : DateInput → Option Date
  | .valid d => some d
  | .unparseable => none

/-- Body of calcola_giorni_2025_2026 after the two pd.to_datetime(..).date()
calls succeed (src/utils/calculations.py lines 38-59): swap if reversed,
clamp to each year window, inclusive day count clamped at 0.
Python ints are non-negative here thanks to max(0, ..), hence Nat × Nat;
(e - s).days on dates is ordinal subtraction. -/
def calcola_core (data_inizio data_fine : Date) : Nat × Nat :=
  let start := if data_fine.ord < data_inizio.ord then data_fine else data_inizio
  let fine := if data_fine.ord < data_inizio.ord then data_inizio else data_fine
  let s25 := dmax start ⟨2025, 1, 1⟩
  let e25 := dmin fine ⟨2025, 12, 31⟩
  let giorni_2025 := (max 0 ((e25.ord : Int) - (s25.ord : Int) + 1)).toNat
  let s26 := dmax start ⟨2026, 1, 1⟩
  let e26 := dmin fine ⟨2026, 12, 31⟩
  let giorni_2026 := (max 0 ((e26.ord : Int) - (s26.ord : Int) + 1)).toNat
  (giorni_2025, giorni_2026)

/-- calcola_giorni_2025_2026 from src/utils/calculations.py: parses both
inputs with pd.to_datetime (default errors="raise", so parse failure
propagates as an exception), then runs the interval arithmetic. -/
def calcola_giorni_2025_2026 (data_inizio data_fine : DateInput) : Except String (Nat × Nat) :=
  match pd_to_datetime data_inizio, pd_to_datetime data_fine with
  | .ok s, .ok e => .ok (calcola_core s e)
  | .error m, _ => .error m
  | _, .error m => .error m

/-- One dataframe row of the richieste table as consumed by
giorni_ferie_in_mese: the raw data_inizio / data_fine cells. -/
structure Row where
  data_inizio : DateInput
  data_fine : DateInput
deriving DecidableEq

/-- A row survives the errors="coerce" + dropna step iff both dates parse. -/
def rowParseable (r : Row) : Bool :=
  (pd_to_datetime_coerce r.data_inizio).isSome &&
    (pd_to_datetime_coerce r.data_fine).isSome

/-- A raw input cell is valid when, if it parses at all, it parses to a
calendar date Python's date type can represent. -/
def inputValid : DateInput → Prop
  | .valid d => d.Valid
  | .unparseable => True

instance : (i : DateInput) → Decidable (inputValid i)
  | .valid d => inferInstanceAs (Decidable d.Valid)
  | .unparseable => inferInstanceAs (Decidable True)

/-- giorni_ferie_in_mese from src/views/home.py (lines 129-179):
coerce both date columns, drop rows with an unparseable date, swap reversed
intervals, clamp each interval to the selected month window, enumerate the
clamped range day by day and count working days; sum over rows.
The month end is the day before the first of the next month (December is
special-cased to the 31st); only its ordinal is ever used (for min and for
the length of the enumerated range), so it is carried as an ordinal.
giorni_row is the body of the per-row for loop (the contribution of one
normalized interval); giorni_ferie_in_mese sums it over the rows. -/
def giorni_row (month_start : Date) (month_end_ord : Nat) (p : Date × Date) : Nat :=
  let s := dmax p.1 month_start
  let e_ord := min p.2.ord month_end_ord
  if e_ord < s.ord then 0
  else (dateList s (e_ord - s.ord + 1)).countP fun d => is_working_day d

def giorni_ferie_in_mese (df : List Row) (anno mese : Nat) : Nat :=
  let parsed := df.filterMap fun r =>
    match pd_to_datetime_coerce r.data_inizio, pd_to_datetime_coerce r.data_fine with
    | some i, some f => some (i, f)
    | _, _ => none
  let normed := parsed.map fun p =>
    if p.2.ord < p.1.ord then (p.2, p.1) else p
  let month_start : Date := ⟨anno, mese, 1⟩
  let month_end_ord : Nat :=
    if mese = 12 then (⟨anno, 12, 31⟩ : Date).ord
    else toordinal anno (mese + 1) 1 - 1
  (normed.map (giorni_row month_start month_end_ord)).sum

/-- Spec-side working-day predicate on ordinals: the day is Monday-Friday
and its date is not a holiday (calendar days are identified with their
ordinals; HOLIDAYS.image Date.ord is the set of holiday ordinals). -/
def isWorkingOrd (n : Nat) : Bool :=
  decide ((n + 6) % 7 < 5) && decide (n ∉ HOLIDAYS.image Date.ord)

/-- Modelled from the spec (countWorkingDaysInMonth, step 4): for each
parseable row, the number of calendar dates in the intersection of the
normalized interval with the month window
[first day of month, last day of month] that are working days, summed
over rows.  Dates are counted through their ordinals. -/
def specMonthCount (df : List Row) (anno mese : Nat) : Nat :=
  (df.map fun r =>
    match pd_to_datetime_coerce r.data_inizio, pd_to_datetime_coerce r.data_fine with
    | some a, some b =>
        ((Finset.Icc (max (min a.ord b.ord) (toordinal anno mese 1))
            (min (max a.ord b.ord) (toordinal anno mese (daysInMonth anno mese)))).filter
          fun n => isWorkingOrd n).card
    | _, _ => 0).sum

example : toordinal 1 1 1 = 1 := by decide
example : (Date.weekday ⟨2025, 12, 8⟩) = 0 := by decide
example : is_working_day ⟨2025, 12, 8⟩ = false := by decide
example : is_working_day ⟨2025, 12, 9⟩ = true := by decide
example : calcola_core ⟨2025, 12, 29⟩ ⟨2026, 1, 2⟩ = (3, 2) := by decide

/-! ### Calendar arithmetic lemmas -/

lemma isLeap_iff (y : Nat) :
    isLeap y = true ↔ (y % 4 = 0 ∧ (y % 100 ≠ 0 ∨ y % 400 = 0)) := by
  simp [isLeap]

lemma dbm_succ (y m : Nat) (h1 : 1 ≤ m) (h2 : m ≤ 11) :
    daysBeforeMonth y (m + 1) = daysBeforeMonth y m + daysInMonth y m := by
  interval_cases m <;> cases h : isLeap y <;>
    simp [daysBeforeMonth, daysInMonth, DAYS_BEFORE_MONTH, DAYS_IN_MONTH, h]

lemma dim_pos (y m : Nat) (h1 : 1 ≤ m) (h2 : m ≤ 12) : 1 ≤ daysInMonth y m := by
  interval_cases m <;> cases h : isLeap y <;>
    simp [daysInMonth, DAYS_IN_MONTH, h]

lemma dbm_day_le (y m d : Nat) (h1 : 1 ≤ m) (h2 : m ≤ 12)
    (h4 : d ≤ daysInMonth y m) :
    daysBeforeMonth y m + d ≤ 365 + (if isLeap y then 1 else 0) := by
  interval_cases m <;> cases h : isLeap y <;>
    simp [daysBeforeMonth, daysInMonth, DAYS_BEFORE_MONTH, DAYS_IN_MONTH, h] at h4 ⊢ <;>
    omega

set_option maxHeartbeats 1600000 in
lemma dby_succ (y : Nat) (hy : 1 ≤ y) :
    daysBeforeYear (y + 1) = daysBeforeYear y + 365 + (if isLeap y then 1 else 0) := by
  obtain ⟨x, rfl⟩ : ∃ x, y = x + 1 := ⟨y - 1, by omega⟩
  cases h : isLeap (x + 1)
  · rw [if_neg (by simp)]
    rw [Bool.eq_false_iff, ne_eq, isLeap_iff] at h
    unfold daysBeforeYear
    simp only [Nat.add_sub_cancel]
    omega
  · rw [if_pos rfl]
    rw [isLeap_iff] at h
    unfold daysBeforeYear
    simp only [Nat.add_sub_cancel]
    omega

lemma dby_le_succ (y : Nat) : daysBeforeYear y ≤ daysBeforeYear (y + 1) := by
  unfold daysBeforeYear
  omega

lemma dby_mono {a b : Nat} (h : a ≤ b) : daysBeforeYear a ≤ daysBeforeYear b := by
  induction b with
  | zero =>
      have : a = 0 := by omega
      simp [this]
  | succ n ih =>
      rcases Nat.lt_or_ge a (n + 1) with h2 | h2
      · exact le_trans (ih (by omega)) (dby_le_succ n)
      · have : a = n + 1 := by omega
        simp [this]

lemma dbm_le_of_le (y : Nat) {a b : Nat} (ha : 1 ≤ a) (h : a ≤ b) (hb : b ≤ 12) :
    daysBeforeMonth y a ≤ daysBeforeMonth y b := by
  have ha2 : a ≤ 12 := le_trans h hb
  interval_cases a <;> interval_cases b <;> cases h : isLeap y <;>
    simp [daysBeforeMonth, DAYS_BEFORE_MONTH, h]

lemma dbm_add_dim_le (y m m2 : Nat) (h1 : 1 ≤ m) (h2 : m < m2) (h3 : m2 ≤ 12) :
    daysBeforeMonth y m + daysInMonth y m ≤ daysBeforeMonth y m2 := by
  rw [← dbm_succ y m h1 (by omega)]
  exact dbm_le_of_le y (by omega) (by omega) h3

/-! ### Ordinals are strictly monotone on valid dates -/

lemma ord_lt_of_year_lt {d e : Date} (hd : d.Valid) (he : e.Valid)
    (h : d.year < e.year) : d.ord < e.ord := by
  obtain ⟨hy1, hm1, hm2, hd1, hd2⟩ := hd
  obtain ⟨hy1e, hm1e, hm2e, hd1e, hd2e⟩ := he
  have hb := dbm_day_le d.year d.month d.day hm1 hm2 hd2
  have hstep := dby_succ d.year hy1
  have hmono : daysBeforeYear (d.year + 1) ≤ daysBeforeYear e.year := dby_mono (by omega)
  simp only [Date.ord, toordinal]
  omega

lemma ord_lt_of_month_lt {d e : Date} (hd : d.Valid) (he : e.Valid)
    (hy : d.year = e.year) (h : d.month < e.month) : d.ord < e.ord := by
  obtain ⟨hy1, hm1, hm2, hd1, hd2⟩ := hd
  obtain ⟨hy1e, hm1e, hm2e, hd1e, hd2e⟩ := he
  have hb := dbm_add_dim_le d.year d.month e.month hm1 (by omega) hm2e
  simp only [Date.ord, toordinal, hy] at hb hd2 ⊢
  omega

lemma toordinal_inj {d e : Date} (hd : d.Valid) (he : e.Valid)
    (h : d.ord = e.ord) : d = e := by
  rcases Nat.lt_trichotomy d.year e.year with hy | hy | hy
  · exact absurd h (Nat.ne_of_lt (ord_lt_of_year_lt hd he hy))
  · rcases Nat.lt_trichotomy d.month e.month with hm | hm | hm
    · exact absurd h (Nat.ne_of_lt (ord_lt_of_month_lt hd he hy hm))
    · have hday : d.day = e.day := by
        simp only [Date.ord, toordinal, hy, hm] at h
        omega
      cases d
      cases e
      simp_all
    · exact absurd h (Nat.ne_of_gt (ord_lt_of_month_lt he hd hy.symm hm))
  · exact absurd h (Nat.ne_of_gt (ord_lt_of_year_lt he hd hy))

/-! ### Successor lemmas -/

lemma valid_succ {d : Date} (hd : d.Valid) : d.succ.Valid := by
  obtain ⟨hy1, hm1, hm2, hd1, hd2⟩ := hd
  unfold Date.succ
  split_ifs with h1 h2
  · refine ⟨hy1, hm1, hm2, ?_, ?_⟩
    · show 1 ≤ d.day + 1
      omega
    · show d.day + 1 ≤ daysInMonth d.year d.month
      omega
  · refine ⟨hy1, ?_, ?_, le_refl 1, ?_⟩
    · show 1 ≤ d.month + 1
      omega
    · show d.month + 1 ≤ 12
      omega
    · show 1 ≤ daysInMonth d.year (d.month + 1)
      exact dim_pos d.year (d.month + 1) (by omega) (by omega)
  · refine ⟨?_, le_refl 1, by show (1 : Nat) ≤ 12; omega, le_refl 1, ?_⟩
    · show 1 ≤ d.year + 1
      omega
    · show 1 ≤ daysInMonth (d.year + 1) 1
      exact dim_pos (d.year + 1) 1 (le_refl 1) (by omega)

lemma succ_ord {d : Date} (hd : d.Valid) : d.succ.ord = d.ord + 1 := by
  obtain ⟨hy1, hm1, hm2, hd1, hd2⟩ := hd
  unfold Date.succ
  split_ifs with h1 h2
  · simp only [Date.ord, toordinal]
    omega
  · simp only [Date.ord, toordinal]
    rw [dbm_succ d.year d.month hm1 (by omega)]
    omega
  · have hm12 : d.month = 12 := by omega
    have hdim : daysInMonth d.year 12 = 31 := by
      simp [daysInMonth, DAYS_IN_MONTH]
    rw [hm12] at hd2 h1
    simp only [Date.ord, toordinal, hm12]
    rw [dby_succ d.year hy1]
    have hdbm1 : daysBeforeMonth (d.year + 1) 1 = 0 := by
      simp [daysBeforeMonth, DAYS_BEFORE_MONTH]
    have hdbm12 : daysBeforeMonth d.year 12 = 334 + (if isLeap d.year then 1 else 0) := by
      cases h : isLeap d.year <;> simp [daysBeforeMonth, DAYS_BEFORE_MONTH, h]
    omega

/-! ### Holiday and working-day bridges -/

lemma holidays_valid : ∀ d ∈ HOLIDAYS, d.Valid := by decide

lemma mem_holiday_ord {d : Date} (hd : d.Valid) :
    d.ord ∈ HOLIDAYS.image Date.ord ↔ d ∈ HOLIDAYS := by
  constructor
  · intro h
    obtain ⟨x, hx, he⟩ := Finset.mem_image.mp h
    rwa [← toordinal_inj (holidays_valid x hx) hd he]
  · intro h
    exact Finset.mem_image_of_mem Date.ord h

lemma is_working_day_ord {d : Date} (hd : d.Valid) :
    is_working_day d = isWorkingOrd d.ord := by
  unfold is_working_day isWorkingOrd Date.weekday
  by_cases h5 : 5 ≤ (d.ord + 6) % 7
  · rw [if_pos h5]
    have h5b : ¬((d.ord + 6) % 7 < 5) := by omega
    simp [h5b]
  · rw [if_neg h5]
    have h5b : (d.ord + 6) % 7 < 5 := by omega
    by_cases hh : d ∈ HOLIDAYS
    · rw [if_pos hh]
      have hmem : d.ord ∈ HOLIDAYS.image Date.ord := (mem_holiday_ord hd).mpr hh
      simp [h5b, hmem]
    · rw [if_neg hh]
      have hmem : d.ord ∉ HOLIDAYS.image Date.ord := fun hc => hh ((mem_holiday_ord hd).mp hc)
      simp [h5b, hmem]

/-! ### Interval counting helpers -/

lemma Icc_inter_Icc_nat (a b c e : Nat) :
    Finset.Icc a b ∩ Finset.Icc c e = Finset.Icc (max a c) (min b e) := by
  ext x
  simp only [Finset.mem_inter, Finset.mem_Icc]
  omega

lemma Ico_filter_card_succ (p : Nat → Bool) (a n : Nat) :
    ((Finset.Ico a (a + (n + 1))).filter (fun k => p k)).card =
      ((Finset.Ico (a + 1) (a + 1 + n)).filter (fun k => p k)).card +
        (if p a then 1 else 0) := by
  have h1 : Finset.Ico a (a + (n + 1)) = insert a (Finset.Ico (a + 1) (a + 1 + n)) := by
    ext x
    simp only [Finset.mem_Ico, Finset.mem_insert]
    omega
  rw [h1, Finset.filter_insert]
  by_cases hw : p a = true
  · rw [if_pos hw, if_pos hw, Finset.card_insert_of_not_mem]
    intro hc
    have hm := Finset.mem_Ico.mp (Finset.mem_of_mem_filter a hc)
    omega
  · rw [if_neg hw, if_neg hw]
    omega

lemma countP_dateList (n : Nat) : ∀ s : Date, s.Valid →
    (dateList s n).countP (fun d => is_working_day d) =
      ((Finset.Ico s.ord (s.ord + n)).filter (fun k => isWorkingOrd k)).card := by
  induction n with
  | zero =>
      intro s hs
      simp [dateList]
  | succ n ih =>
      intro s hs
      rw [dateList, List.countP_cons, ih s.succ (valid_succ hs), succ_ord hs,
        Ico_filter_card_succ]
      simp [is_working_day_ord hs]

/-! ### Month window -/

lemma monthEnd_ord (anno mese : Nat) (h1 : 1 ≤ mese) (h2 : mese ≤ 12) :
    (if mese = 12 then (⟨anno, 12, 31⟩ : Date).ord
      else toordinal anno (mese + 1) 1 - 1) =
      toordinal anno mese (daysInMonth anno mese) := by
  by_cases h : mese = 12
  · subst h
    rw [if_pos rfl]
    have hdim : daysInMonth anno 12 = 31 := by
      simp [daysInMonth, DAYS_IN_MONTH]
    simp [Date.ord, toordinal, hdim]
  · rw [if_neg h]
    unfold toordinal
    rw [dbm_succ anno mese h1 (by omega)]
    have := dim_pos anno mese h1 h2
    omega

/-! ### Closed form of calcola_giorni_2025_2026 -/

lemma dmax_ord (a b : Date) : (dmax a b).ord = max a.ord b.ord := by
  unfold dmax
  split_ifs <;> omega

lemma dmin_ord (a b : Date) : (dmin a b).ord = min a.ord b.ord := by
  unfold dmin
  split_ifs <;> omega

lemma calcola_core_card (a b : Date) :
    calcola_core a b =
      ((Finset.Icc (min a.ord b.ord) (max a.ord b.ord) ∩
          Finset.Icc (Date.ord ⟨2025, 1, 1⟩) (Date.ord ⟨2025, 12, 31⟩)).card,
       (Finset.Icc (min a.ord b.ord) (max a.ord b.ord) ∩
          Finset.Icc (Date.ord ⟨2026, 1, 1⟩) (Date.ord ⟨2026, 12, 31⟩)).card) := by
  rw [Icc_inter_Icc_nat, Icc_inter_Icc_nat, Nat.card_Icc, Nat.card_Icc]
  simp only [calcola_core]
  rw [dmax_ord, dmin_ord, dmax_ord, dmin_ord]
  by_cases h : Date.ord b < Date.ord a
  · simp only [if_pos h, Prod.mk.injEq]
    omega
  · simp only [if_neg h, Prod.mk.injEq]
    omega

/-! ### Per-row month count -/

lemma giorni_row_card_norm (anno mese : Nat) (h1 : 1 ≤ anno) (hm1 : 1 ≤ mese)
    (hm2 : mese ≤ 12) {a b : Date} (ha : a.Valid) :
    giorni_row ⟨anno, mese, 1⟩
        (if mese = 12 then (⟨anno, 12, 31⟩ : Date).ord
          else toordinal anno (mese + 1) 1 - 1) (a, b) =
      ((Finset.Icc (max a.ord (toordinal anno mese 1))
          (min b.ord (toordinal anno mese (daysInMonth anno mese)))).filter
        fun n => isWorkingOrd n).card := by
  unfold giorni_row
  rw [monthEnd_ord anno mese hm1 hm2]
  set M := toordinal anno mese (daysInMonth anno mese) with hM
  have hmsv : (⟨anno, mese, 1⟩ : Date).Valid :=
    ⟨h1, hm1, hm2, le_refl 1, dim_pos anno mese hm1 hm2⟩
  have hsv : (dmax a ⟨anno, mese, 1⟩).Valid := by
    unfold dmax
    split_ifs
    · exact hmsv
    · exact ha
  have hso : (dmax a ⟨anno, mese, 1⟩).ord = max a.ord (toordinal anno mese 1) := by
    rw [dmax_ord]
    rfl
  by_cases hc : min b.ord M < (dmax a ⟨anno, mese, 1⟩).ord
  · rw [if_pos hc]
    rw [← hso, Finset.Icc_eq_empty (by omega), Finset.filter_empty, Finset.card_empty]
  · rw [if_neg hc]
    rw [countP_dateList _ _ hsv]
    have hset : Finset.Ico (dmax a ⟨anno, mese, 1⟩).ord
        ((dmax a ⟨anno, mese, 1⟩).ord + (min b.ord M - (dmax a ⟨anno, mese, 1⟩).ord + 1)) =
        Finset.Icc (dmax a ⟨anno, mese, 1⟩).ord (min b.ord M) := by
      ext x
      simp only [Finset.mem_Ico, Finset.mem_Icc]
      omega
    rw [hset, hso]

lemma giorni_row_card (anno mese : Nat) (h1 : 1 ≤ anno) (hm1 : 1 ≤ mese)
    (hm2 : mese ≤ 12) {a b : Date} (ha : a.Valid) (hb : b.Valid) :
    giorni_row ⟨anno, mese, 1⟩
        (if mese = 12 then (⟨anno, 12, 31⟩ : Date).ord
          else toordinal anno (mese + 1) 1 - 1)
        (if b.ord < a.ord then (b, a) else (a, b)) =
      ((Finset.Icc (max (min a.ord b.ord) (toordinal anno mese 1))
          (min (max a.ord b.ord) (toordinal anno mese (daysInMonth anno mese)))).filter
        fun n => isWorkingOrd n).card := by
  by_cases hs : b.ord < a.ord
  · have hab : b.ord ≤ a.ord := le_of_lt hs
    rw [if_pos hs, giorni_row_card_norm anno mese h1 hm1 hm2 hb,
      min_eq_right hab, max_eq_left hab]
  · have hab : a.ord ≤ b.ord := by omega
    rw [if_neg hs, giorni_row_card_norm anno mese h1 hm1 hm2 ha,
      min_eq_left hab, max_eq_right hab]

lemma giorni_eq_spec (df : List Row) (anno mese : Nat) (h1 : 1 ≤ anno)
    (hm1 : 1 ≤ mese) (hm2 : mese ≤ 12)
    (hv : ∀ r ∈ df, inputValid r.data_inizio ∧ inputValid r.data_fine) :
    giorni_ferie_in_mese df anno mese = specMonthCount df anno mese := by
  induction df with
  | nil => rfl
  | cons r df ih =>
      have hr := hv r (List.mem_cons_self r df)
      have hdf : ∀ x ∈ df, inputValid x.data_inizio ∧ inputValid x.data_fine :=
        fun x hx => hv x (List.mem_cons_of_mem r hx)
      have ihd := ih hdf
      simp only [giorni_ferie_in_mese, specMonthCount] at ihd ⊢
      cases hri : pd_to_datetime_coerce r.data_inizio with
      | none =>
          simp only [List.filterMap_cons, List.map_cons, List.sum_cons, hri]
          simpa using ihd
      | some a =>
          cases hrf : pd_to_datetime_coerce r.data_fine with
          | none =>
              simp only [List.filterMap_cons, List.map_cons, List.sum_cons, hri, hrf]
              simpa using ihd
          | some b =>
              have hav : a.Valid := by
                rcases r with ⟨ri, rf⟩
                cases ri with
                | valid x =>
                    simp only [pd_to_datetime_coerce, Option.some.injEq] at hri
                    subst hri
                    exact hr.1
                | unparseable => simp [pd_to_datetime_coerce] at hri
              have hbv : b.Valid := by
                rcases r with ⟨ri, rf⟩
                cases rf with
                | valid x =>
                    simp only [pd_to_datetime_coerce, Option.some.injEq] at hrf
                    subst hrf
                    exact hr.2
                | unparseable => simp [pd_to_datetime_coerce] at hrf
              simp only [List.filterMap_cons, List.map_cons, List.sum_cons, hri, hrf]
              rw [giorni_row_card anno mese h1 hm1 hm2 hav hbv, ihd]

/-! ### Row-wise decomposition of giorni_ferie_in_mese -/

lemma giorni_cons (r : Row) (df : List Row) (anno mese : Nat) :
    giorni_ferie_in_mese (r :: df) anno mese =
      giorni_ferie_in_mese [r] anno mese + giorni_ferie_in_mese df anno mese := by
  simp only [giorni_ferie_in_mese, List.filterMap_cons]
  cases hri : pd_to_datetime_coerce r.data_inizio with
  | none => simp [hri]
  | some a =>
      cases hrf : pd_to_datetime_coerce r.data_fine with
      | none => simp [hri, hrf]
      | some b => simp [hri, hrf]

lemma giorni_unparseable (r : Row) (anno mese : Nat)
    (h : pd_to_datetime_coerce r.data_inizio = none ∨
      pd_to_datetime_coerce r.data_fine = none) :
    giorni_ferie_in_mese [r] anno mese = 0 := by
  simp only [giorni_ferie_in_mese, List.filterMap_cons]
  rcases h with h | h
  · simp [h]
  · cases hri : pd_to_datetime_coerce r.data_inizio <;> simp [h, hri]

lemma giorni_filter (df : List Row) (anno mese : Nat) :
    giorni_ferie_in_mese (df.filter rowParseable) anno mese =
      giorni_ferie_in_mese df anno mese := by
  induction df with
  | nil => rfl
  | cons r df ih =>
      by_cases h : rowParseable r = true
      · rw [List.filter_cons_of_pos h, giorni_cons, ih, ← giorni_cons]
      · rw [List.filter_cons_of_neg h, giorni_cons, ih]
        have h0 : giorni_ferie_in_mese [r] anno mese = 0 := by
          apply giorni_unparseable
          cases hri : pd_to_datetime_coerce r.data_inizio <;>
            cases hrf : pd_to_datetime_coerce r.data_fine <;>
            simp_all [rowParseable]
        omega

/-! ### Claims -/

/-- C1: for every pair of parsed input dates and each supported year
y ∈ {2025, 2026}, calcola_giorni_2025_2026 returns for y the inclusive
calendar-day count of the intersection of the normalized interval
[min, max] with [y-01-01, y-12-31] — counting ALL calendar days (the
cardinality of the intersection, not filtered by is_working_day), which
is 0 exactly when the intersection is empty. -/
theorem C1_calcola_counts_all_calendar_days (a b : Date) :
    calcola_giorni_2025_2026 (.valid a) (.valid b) =
      .ok ((Finset.Icc (min a.ord b.ord) (max a.ord b.ord) ∩
          Finset.Icc (Date.ord ⟨2025, 1, 1⟩) (Date.ord ⟨2025, 12, 31⟩)).card,
        (Finset.Icc (min a.ord b.ord) (max a.ord b.ord) ∩
          Finset.Icc (Date.ord ⟨2026, 1, 1⟩) (Date.ord ⟨2026, 12, 31⟩)).card) := by
  show Except.ok (calcola_core a b) = _
  rw [calcola_core_card]

/-- C2: for every dataframe of intervals whose parseable dates are
representable calendar dates, every year ≥ 1 and month 1-12,
giorni_ferie_in_mese equals the sum over intervals of the number of
calendar dates (ordinals) in the intersection of the normalized interval
with the month window that are working days.  The result is a Nat, hence
non-negative. -/
theorem C2_month_count_is_spec_count (df : List Row) (anno mese : Nat)
    (h1 : 1 ≤ anno) (hm1 : 1 ≤ mese) (hm2 : mese ≤ 12)
    (hv : ∀ r ∈ df, inputValid r.data_inizio ∧ inputValid r.data_fine) :
    giorni_ferie_in_mese df anno mese = specMonthCount df anno mese :=
  giorni_eq_spec df anno mese h1 hm1 hm2 hv

theorem C2_month_count_is_spec_count_witness :
    (∀ r ∈ [Row.mk (.valid ⟨2025, 12, 1⟩) (.valid ⟨2025, 12, 31⟩),
        Row.mk .unparseable (.valid ⟨2025, 12, 5⟩)],
      inputValid r.data_inizio ∧ inputValid r.data_fine) ∧
    giorni_ferie_in_mese
        [Row.mk (.valid ⟨2025, 12, 1⟩) (.valid ⟨2025, 12, 31⟩),
         Row.mk .unparseable (.valid ⟨2025, 12, 5⟩)] 2025 12 =
      specMonthCount
        [Row.mk (.valid ⟨2025, 12, 1⟩) (.valid ⟨2025, 12, 31⟩),
         Row.mk .unparseable (.valid ⟨2025, 12, 5⟩)] 2025 12 :=
  ⟨by decide,
    C2_month_count_is_spec_count _ 2025 12 (by decide) (by decide) (by decide) (by decide)⟩

/-- C3: is_working_day returns false when the weekday is Saturday or
Sunday (weekday ≥ 5), false when the date is in the fixed holiday set,
and true otherwise; it is a total Lean function with no error path. -/
theorem C3_is_working_day_cases (d : Date) :
    (5 ≤ d.weekday → is_working_day d = false) ∧
    (d ∈ HOLIDAYS → is_working_day d = false) ∧
    (d.weekday < 5 → d ∉ HOLIDAYS → is_working_day d = true) := by
  unfold is_working_day
  refine ⟨fun h => ?_, fun h => ?_, fun h5 hh => ?_⟩
  · rw [if_pos h]
  · by_cases h5 : 5 ≤ d.weekday
    · rw [if_pos h5]
    · rw [if_neg h5, if_pos h]
  · rw [if_neg (by omega), if_neg hh]

theorem C3_is_working_day_cases_witness :
    is_working_day ⟨2025, 12, 6⟩ = false ∧ is_working_day ⟨2025, 12, 25⟩ = false ∧
      is_working_day ⟨2025, 12, 9⟩ = true :=
  ⟨(C3_is_working_day_cases ⟨2025, 12, 6⟩).1 (by decide),
    (C3_is_working_day_cases ⟨2025, 12, 25⟩).2.1 (by decide),
    (C3_is_working_day_cases ⟨2025, 12, 9⟩).2.2 (by decide) (by decide)⟩

/-- C4 counterexample: the claim says calcola_giorni_2025_2026 never
raises, even on unparseable date input.  But the source calls
pd.to_datetime with the default errors="raise", so an unparseable
data_inizio raises (the embedding returns Except.error, not a result). -/
theorem C4_counterexample_unparseable_raises :
    calcola_giorni_2025_2026 .unparseable (.valid ⟨2025, 1, 1⟩) =
      .error parseErrorMsg := rfl

/-- C4 amended: calcola_giorni_2025_2026 never raises on parseable date
inputs, and reversed ranges are normalized by swapping (swapping the
arguments leaves the result unchanged); unparseable dates are excluded
only in giorni_ferie_in_mese, not here. -/
theorem C4_amended_total_on_parseable (a b : Date) :
    calcola_giorni_2025_2026 (.valid a) (.valid b) = .ok (calcola_core a b) ∧
      (b.ord < a.ord → calcola_core a b = calcola_core b a) := by
  refine ⟨rfl, fun h => ?_⟩
  rw [calcola_core_card, calcola_core_card,
    Nat.min_comm b.ord a.ord, Nat.max_comm b.ord a.ord]

theorem C4_amended_total_on_parseable_witness :
    calcola_giorni_2025_2026 (.valid ⟨2026, 5, 5⟩) (.valid ⟨2025, 3, 3⟩) =
        .ok (calcola_core ⟨2026, 5, 5⟩ ⟨2025, 3, 3⟩) ∧
      calcola_core ⟨2026, 5, 5⟩ ⟨2025, 3, 3⟩ = calcola_core ⟨2025, 3, 3⟩ ⟨2026, 5, 5⟩ :=
  ⟨(C4_amended_total_on_parseable ⟨2026, 5, 5⟩ ⟨2025, 3, 3⟩).1,
    (C4_amended_total_on_parseable ⟨2026, 5, 5⟩ ⟨2025, 3, 3⟩).2 (by decide)⟩

/-- C5: when the normalized interval lies inside [2025-01-01, 2026-12-31],
the two counts of calcola_giorni_2025_2026 sum to the inclusive
calendar-day length of the whole interval; and on [2025-12-29, 2026-01-02]
the split is (3, 2). -/
theorem C5_year_split_sums_to_length (a b : Date)
    (h1 : Date.ord ⟨2025, 1, 1⟩ ≤ min a.ord b.ord)
    (h2 : max a.ord b.ord ≤ Date.ord ⟨2026, 12, 31⟩) :
    (calcola_core a b).1 + (calcola_core a b).2 =
        max a.ord b.ord - min a.ord b.ord + 1 ∧
      calcola_core ⟨2025, 12, 29⟩ ⟨2026, 1, 2⟩ = (3, 2) := by
  constructor
  · rw [calcola_core_card, Icc_inter_Icc_nat, Icc_inter_Icc_nat,
      Nat.card_Icc, Nat.card_Icc]
    have e1 : Date.ord ⟨2025, 12, 31⟩ + 1 = Date.ord ⟨2026, 1, 1⟩ := by decide
    have e2 : Date.ord ⟨2025, 1, 1⟩ ≤ Date.ord ⟨2025, 12, 31⟩ := by decide
    have e3 : Date.ord ⟨2026, 1, 1⟩ ≤ Date.ord ⟨2026, 12, 31⟩ := by decide
    dsimp only
    omega
  · decide

theorem C5_year_split_sums_to_length_witness :
    (calcola_core ⟨2025, 12, 29⟩ ⟨2026, 1, 2⟩).1 +
        (calcola_core ⟨2025, 12, 29⟩ ⟨2026, 1, 2⟩).2 =
      max (Date.ord ⟨2025, 12, 29⟩) (Date.ord ⟨2026, 1, 2⟩) -
        min (Date.ord ⟨2025, 12, 29⟩) (Date.ord ⟨2026, 1, 2⟩) + 1 ∧
      calcola_core ⟨2025, 12, 29⟩ ⟨2026, 1, 2⟩ = (3, 2) :=
  C5_year_split_sums_to_length ⟨2025, 12, 29⟩ ⟨2026, 1, 2⟩ (by decide) (by decide)

/-- C6: on the single interval [2025-12-01, 2025-12-31] with year 2025 and
month 12, giorni_ferie_in_mese returns 31 minus the number of weekend days
of December 2025 minus the 3 December holidays; the weekend count is
computed by enumerating the month. -/
theorem C6_december_2025_value :
    giorni_ferie_in_mese [Row.mk (.valid ⟨2025, 12, 1⟩) (.valid ⟨2025, 12, 31⟩)] 2025 12 =
      31 - ((Finset.Icc (Date.ord ⟨2025, 12, 1⟩) (Date.ord ⟨2025, 12, 31⟩)).filter
        (fun n => decide (5 ≤ (n + 6) % 7))).card - 3 := by decide

/-- C7: calcola_giorni_2025_2026 is symmetric in its two date arguments. -/
theorem C7_calcola_symmetric (a b : Date) :
    calcola_giorni_2025_2026 (.valid a) (.valid b) =
      calcola_giorni_2025_2026 (.valid b) (.valid a) := by
  show Except.ok (calcola_core a b) = Except.ok (calcola_core b a)
  rw [calcola_core_card, calcola_core_card,
    Nat.min_comm b.ord a.ord, Nat.max_comm b.ord a.ord]

/-- C8: giorni_ferie_in_mese over a dataframe equals the sum of
giorni_ferie_in_mese over each singleton dataframe: per-interval
contributions are independent and additive. -/
theorem C8_month_count_additive (df : List Row) (anno mese : Nat) :
    giorni_ferie_in_mese df anno mese =
      (df.map fun r => giorni_ferie_in_mese [r] anno mese).sum := by
  induction df with
  | nil => rfl
  | cons r df ih => rw [giorni_cons, List.map_cons, List.sum_cons, ih]

/-- C9: a row whose start or end date does not parse is discarded and
contributes exactly 0 (dropping it leaves the total unchanged), and the
total over a dataframe equals the total over its parseable rows. -/
theorem C9_unparseable_rows_skipped (r : Row) (df : List Row) (anno mese : Nat)
    (h : pd_to_datetime_coerce r.data_inizio = none ∨
      pd_to_datetime_coerce r.data_fine = none) :
    giorni_ferie_in_mese (r :: df) anno mese = giorni_ferie_in_mese df anno mese ∧
      giorni_ferie_in_mese (df.filter rowParseable) anno mese =
        giorni_ferie_in_mese df anno mese := by
  refine ⟨?_, giorni_filter df anno mese⟩
  rw [giorni_cons, giorni_unparseable r anno mese h, Nat.zero_add]

theorem C9_unparseable_rows_skipped_witness :
    giorni_ferie_in_mese
        [Row.mk .unparseable (.valid ⟨2025, 12, 1⟩),
         Row.mk (.valid ⟨2025, 12, 1⟩) (.valid ⟨2025, 12, 31⟩)] 2025 12 =
      giorni_ferie_in_mese
        [Row.mk (.valid ⟨2025, 12, 1⟩) (.valid ⟨2025, 12, 31⟩)] 2025 12 ∧
    giorni_ferie_in_mese
        ([Row.mk (.valid ⟨2025, 12, 1⟩) (.valid ⟨2025, 12, 31⟩)].filter rowParseable)
        2025 12 =
      giorni_ferie_in_mese
        [Row.mk (.valid ⟨2025, 12, 1⟩) (.valid ⟨2025, 12, 31⟩)] 2025 12 :=
  C9_unparseable_rows_skipped (Row.mk .unparseable (.valid ⟨2025, 12, 1⟩))
    [Row.mk (.valid ⟨2025, 12, 1⟩) (.valid ⟨2025, 12, 31⟩)] 2025 12 (by decide)

/-- C10: the two hard-coded holiday sets — HOLIDAYS in utils/calculations.py
and HOLIDAYS_FIXED in settings/constants.py — are equal, and both contain
exactly the five dates 2025-12-08, 2025-12-25, 2025-12-26, 2026-01-01,
2026-01-06. -/
theorem C10_holiday_sets_agree :
    HOLIDAYS_FIXED = HOLIDAYS ∧
      ∀ d : Date, d ∈ HOLIDAYS ↔
        (d = ⟨2025, 12, 8⟩ ∨ d = ⟨2025, 12, 25⟩ ∨ d = ⟨2025, 12, 26⟩ ∨
          d = ⟨2026, 1, 1⟩ ∨ d = ⟨2026, 1, 6⟩) := by
  refine ⟨rfl, fun d => ?_⟩
  simp [HOLIDAYS]
